import Mathlib

/-!
rela: fetch a list of URLs and extract readable articles

A shallow embedding of `rela.go`.  The program is glue around three library
calls (`http.Get`, `url.Parse`, `readability.FromReader`); the libraries are
modelled as the fields of a `World`, and every effect the program performs
(a library call, a log record, closing a response body) is recorded, in
program order, in a list of `Event`s that each function returns next to its
Go result.
-/

namespace Rela

/-! ## Go errors -/

/-- An `error` value: either one produced by a library, or one built by
`fmt.Errorf` with a single `%w` verb at the end of the format string. -/
inductive GoError where
  | lib (msg : String)
  | wrapped (text : String) (cause : GoError)
deriving DecidableEq

/-- The method `Error()`. -/
def GoError.Error : GoError → String
  | .lib msg => msg
  | .wrapped text cause => text ++ cause.Error

/-- The method `Unwrap()` as `errors.Unwrap` sees it. -/
def GoError.Unwrap : GoError → Option GoError
  | .lib _ => none
  | .wrapped _ cause => some cause

/-- The last error of the `Unwrap` chain: the original cause. -/
def GoError.rootCause : GoError → GoError
  | .lib msg => .lib msg
  | .wrapped _ cause => cause.rootCause

/-- The call `fmt.Errorf(text + "%w", err)`, `text` already formatted. -/
def Errorf (text : String) (err : GoError) : GoError :=
  .wrapped text err

/-! ## Data model -/

/-- The struct `Article` of `rela.go`. -/
structure Article where
  Title : String
  RawContent : String
  TextContent : String
  Length : Int
deriving DecidableEq

/-- The composite literal `Article{}`: the zero value. -/
def Article.zero : Article :=
  { Title := "", RawContent := "", TextContent := "", Length := 0 }

/-- The fields of `readability.Article` (the library's result) that are strings
or integers; `Parse` reads four of them. -/
structure ReadabilityArticle where
  Title : String
  Byline : String
  Content : String
  TextContent : String
  Length : Int
  Excerpt : String
  SiteName : String
deriving DecidableEq

/-- A `*url.URL` that is not nil; `String` is the result of its method
`String()`. -/
structure URL where
  String : String
deriving DecidableEq

/-- A response body stream (`io.ReadCloser`): `id` tells one stream from
another, `data` is what reading it yields. -/
structure Body where
  id : Nat
  data : String
deriving DecidableEq

/-- The fields of `*http.Response` that matter here. -/
structure Response where
  StatusCode : Nat
  Body : Body
deriving DecidableEq

/-- The struct `http.Client`; `Timeout` is a `time.Duration` in nanoseconds and
zero means no timeout. -/
structure Client where
  Timeout : Int
deriving DecidableEq

/-- The constant `time.Second`, in nanoseconds. -/
def Second : Int := 1000000000

/-- The variable `http.DefaultClient`: `&http.Client{}`. -/
def DefaultClient : Client := { Timeout := 0 }

/-! ## Logging (`log/slog`) -/

/-- The constant `slog.LevelInfo`. -/
def LevelInfo : Int := 0

/-- The constant `slog.LevelError`. -/
def LevelError : Int := 8

/-- A log record as the handler receives it: level, message, and the
attributes (those of the logger first, then those of the call). -/
structure Record where
  level : Int
  msg : String
  attrs : List (String × String)
deriving DecidableEq

/-- A `*slog.Logger`: the minimum level of its handler and the attributes
added by `With`. -/
structure Logger where
  minLevel : Int
  attrs : List (String × String)
deriving DecidableEq

/-- An effect of the program. -/
inductive Event where
  | log (r : Record)
  | httpGet (client : Client) (rawURL : String)
  | urlParse (rawURL : String)
  | fromReader (body : Body) (u : URL)
  | close (body : Body)
deriving DecidableEq

/-- The call `slog.New(slog.NewTextHandler(os.Stdout, &slog.HandlerOptions{Level: level}))`. -/
def Logger.New (level : Int) : Logger :=
  { minLevel := level, attrs := [] }

/-- The method `With(key, value)`. -/
def Logger.With (l : Logger) (key value : String) : Logger :=
  { l with attrs := l.attrs ++ [(key, value)] }

/-- Emit a record at `level` when the handler is enabled for it. -/
def Logger.emit (l : Logger) (level : Int) (msg : String) (args : List (String × String)) :
    List Event :=
  if l.minLevel ≤ level then [Event.log { level := level, msg := msg, attrs := l.attrs ++ args }]
  else []

/-- The method `Info(msg)`. -/
def Logger.Info (l : Logger) (msg : String) : List Event :=
  l.emit LevelInfo msg []

/-- The method `Error(msg, args...)`. -/
def Logger.Error (l : Logger) (msg : String) (args : List (String × String)) : List Event :=
  l.emit LevelError msg args

/-! ## The libraries -/

/-- What the libraries answer.  `Get c raw` is `c.Get(raw)` (`http.Get` is
`http.DefaultClient.Get`), `Parse raw` is `url.Parse(raw)`, and
`FromReader body u` is `readability.FromReader(body, u)`. -/
structure World where
  Get : Client → String → Except GoError Response
  Parse : String → Except GoError URL
  FromReader : Body → URL → Except GoError ReadabilityArticle

/-! ## The program -/

/-- The struct `ReadabilityParser`. -/
structure ReadabilityParser where
deriving DecidableEq

/-- A Go result `(Article, error)` together with the effects performed. -/
structure Outcome where
  article : Article
  err : Option GoError
  trace : List Event
deriving DecidableEq

/-- The method `ReadabilityParser.Parse`. -/
def ReadabilityParser.Parse (_p : ReadabilityParser) (w : World) (body : Body) (parsedURL : URL) :
    Outcome :=
  match w.FromReader body parsedURL with
  | .error err =>
    { article := Article.zero
      err := some (Errorf ("failed to parse document from " ++ parsedURL.String ++ ": ") err)
      trace := [Event.fromReader body parsedURL] }
  | .ok a =>
    { article :=
        { Title := a.Title, RawContent := a.Content, TextContent := a.TextContent,
          Length := a.Length }
      err := none
      trace := [Event.fromReader body parsedURL] }

/-- The part of `ParseArticleFromURL` after `defer resp.Body.Close()`:
the deferred call is not part of it. -/
def parseFetched (w : World) (rawURL : String) (resp : Response) (parser : ReadabilityParser)
    (logger : Logger) : Outcome :=
  match w.Parse rawURL with
  | .error err =>
    { article := Article.zero
      err := some (Errorf "failed to parse url: " err)
      trace := [Event.urlParse rawURL] }
  | .ok parsedURL =>
    let r := parser.Parse w resp.Body parsedURL
    match r.err with
    | some err =>
      { article := Article.zero
        err := some (Errorf "failed to parse response body: " err)
        trace := Event.urlParse rawURL :: r.trace }
    | none =>
      { article := r.article
        err := none
        trace := Event.urlParse rawURL :: r.trace ++ logger.Info "successfully parsed article" }

/-- The function `ParseArticleFromURL`.  The argument `client` is not used by
the body: the request is made with `http.Get`. -/
def ParseArticleFromURL (w : World) (rawURL : String) (_client : Client)
    (parser : ReadabilityParser) (logger : Logger) : Outcome :=
  let t0 := logger.Info "parsing article from url..."
  match w.Get DefaultClient rawURL with
  | .error err =>
    { article := Article.zero
      err := some (Errorf "failed to fetch url: " err)
      trace := t0 ++ [Event.httpGet DefaultClient rawURL] }
  | .ok resp =>
    let r := parseFetched w rawURL resp parser logger
    { r with trace := t0 ++ [Event.httpGet DefaultClient rawURL] ++ r.trace
                        ++ [Event.close resp.Body] }

/-- One iteration of the loop of `main`, for the element `u`. -/
def iteration (w : World) (logger : Logger) (client : Client) (parser : ReadabilityParser)
    (u : String) : List Event :=
  let childLogger := logger.With "url" u
  let r := ParseArticleFromURL w u client parser childLogger
  match r.err with
  | some err =>
    r.trace ++ childLogger.Error "failed to parse article from url" [("error", err.Error)]
  | none => r.trace

/-- The loop `for _, u := range urls` of `main`. -/
def mainLoop (w : World) (logger : Logger) (client : Client) (parser : ReadabilityParser) :
    List String → List Event
  | [] => []
  | u :: rest => iteration w logger client parser u ++ mainLoop w logger client parser rest

/-- The logger that `main` builds. -/
def mainLogger : Logger := Logger.New LevelInfo

/-- The client that `main` builds. -/
def mainClient : Client := { Timeout := 10 * Second }

/-- The list `urls` of `main`. -/
def mainURLs : List String :=
  [ "https://cbea.ms/git-commit/",
    "https://tbaggery.com/2008/04/19/a-note-about-git-commit-messages.html" ]

/-- The loop of `main` with the logger, client and parser that `main` builds,
over a given list. -/
def run (w : World) (urls : List String) : List Event :=
  mainLoop w mainLogger mainClient ReadabilityParser.mk urls

/-- The function `main`. -/
def main (w : World) : List Event :=
  run w mainURLs

/-! ## Observations on a list of effects -/

/-- The requests made: client and URL of each `Get`, in order. -/
def requests (t : List Event) : List (Client × String) :=
  t.filterMap fun e => match e with
    | .httpGet c raw => some (c, raw)
    | _ => none

/-- The log records emitted, in order. -/
def records (t : List Event) : List Record :=
  t.filterMap fun e => match e with
    | .log r => some r
    | _ => none

/-- The records emitted at `slog.LevelError`, in order. -/
def errorRecords (t : List Event) : List Record :=
  (records t).filter fun r => r.level = LevelError

/-- The calls of `readability.FromReader`, in order. -/
def parserCalls (t : List Event) : List (Body × URL) :=
  t.filterMap fun e => match e with
    | .fromReader b u => some (b, u)
    | _ => none

/-- The bodies closed, in order. -/
def closes (t : List Event) : List Body :=
  t.filterMap fun e => match e with
    | .close b => some b
    | _ => none

/-- Whether `pat` starts `s`. -/
def startsWith : List Char → List Char → Bool
  | [], _ => true
  | _ :: _, [] => false
  | p :: ps, c :: cs => p == c && startsWith ps cs

/-- Whether `pat` occurs in `s` as a contiguous run. -/
def occursIn (pat : List Char) : List Char → Bool
  | [] => startsWith pat []
  | c :: cs => startsWith pat (c :: cs) || occursIn pat cs

/-- Whether the text `pat` occurs in the text `s`. -/
def mentions (s pat : String) : Bool :=
  occursIn pat.data s.data

/-! ## A concrete world -/

/-- The article the library extracts from `demoPage`. -/
def demoExtract : ReadabilityArticle :=
  { Title := "T", Byline := "", Content := "<p>Hello world</p>", TextContent := "Hello world",
    Length := 11, Excerpt := "", SiteName := "" }

/-- A minimal HTML document. -/
def demoPage : String :=
  "<html><head><title>T</title></head><body><p>Hello world</p></body></html>"

/-- A world with one URL for each way through `ParseArticleFromURL`:
`http://ok/` serves `demoPage`, `http://missing/` serves it with status 404,
`http://empty/` serves an empty body that the library rejects, `http://moved/`
redirects to a host that drops the connection, `http://odd/` is fetched but
rejected by `url.Parse`, and every other URL refuses the connection. -/
def demoWorld : World where
  Get := fun _ raw =>
    if raw = "http://ok/" then .ok { StatusCode := 200, Body := { id := 1, data := demoPage } }
    else if raw = "http://missing/" then
      .ok { StatusCode := 404, Body := { id := 2, data := demoPage } }
    else if raw = "http://empty/" then .ok { StatusCode := 200, Body := { id := 3, data := "" } }
    else if raw = "http://odd/" then .ok { StatusCode := 200, Body := { id := 4, data := "" } }
    else if raw = "http://moved/" then .error (.lib "Get \x22http://gone/\x22: EOF")
    else .error (.lib "dial tcp: connection refused")
  Parse := fun raw =>
    if raw = "http://odd/" then .error (.lib "parse \x22http://odd/\x22: invalid URL")
    else .ok { String := raw }
  FromReader := fun body _ =>
    if body.data = "" then .error (.lib "EOF") else .ok demoExtract

/-! ## The vocabulary of the specification -/

/-- Modelled from the spec: the extractor is an external capability
(`readability.FromReader` of go-readability, no part of this repository) whose
result is an article with `length` the character count of `textContent`
(sections 3 and 4.2). -/
def World.extractorCountsCharacters (w : World) : Prop :=
  ∀ body u a, w.FromReader body u = .ok a → a.Length = a.TextContent.length

/-- Whether the fetch of `rawURL` succeeds. -/
def fetchSucceeds (w : World) (rawURL : String) : Bool :=
  match w.Get DefaultClient rawURL with
  | .ok _ => true
  | .error _ => false

/-- Whether the fetch of `rawURL` succeeds and the extraction from the fetched
body succeeds. -/
def extractionSucceeds (w : World) (rawURL : String) : Bool :=
  match w.Get DefaultClient rawURL with
  | .error _ => false
  | .ok resp =>
    match w.Parse rawURL with
    | .error _ => false
    | .ok parsedURL =>
      match w.FromReader resp.Body parsedURL with
      | .error _ => false
      | .ok _ => true

/-- The record that opens the block of `u`. -/
def startRecord (u : String) : Record :=
  { level := LevelInfo, msg := "parsing article from url...", attrs := [("url", u)] }

/-- The record that closes the block of `u` on success. -/
def successRecord (u : String) : Record :=
  { level := LevelInfo, msg := "successfully parsed article", attrs := [("url", u)] }

/-- The record that closes the block of `u` on failure, `detail` being the
message of the error. -/
def failureRecord (u detail : String) : Record :=
  { level := LevelError, msg := "failed to parse article from url",
    attrs := [("url", u), ("error", detail)] }

/-- The block of `u` as the specification describes it: the start record, then
the success record exactly when fetch and extraction succeeded, and a failure
record otherwise. -/
def IsBlock (w : World) (u : String) (block : List Record) : Prop :=
  ∃ second, block = [startRecord u, second] ∧
    ((extractionSucceeds w u = true ∧ second = successRecord u) ∨
     (extractionSucceeds w u = false ∧ ∃ detail, second = failureRecord u detail))

/-- The world `w` with every response given the status `code`, and nothing
else changed. -/
def World.withStatus (w : World) (code : Nat) : World :=
  { w with Get := fun c raw => (w.Get c raw).map fun r => { r with StatusCode := code } }

/-- What the code makes of the cause of a failure: the error `e` returned for
`rawURL` is the cause wrapped in a text that names the stage, its message is
that text followed by the message of what it wraps, and unwrapping leads to the
cause.  For a failed extraction the wrapped error is the one built by `Parse`,
whose text holds the `String()` of the parsed URL. -/
def NamesStageAndWrapsCause (w : World) (rawURL : String) (e : GoError) : Prop :=
  (∃ cause, w.Get DefaultClient rawURL = .error cause ∧
    e.Error = "failed to fetch url: " ++ cause.Error ∧ e.Unwrap = some cause) ∨
  (∃ resp cause, w.Get DefaultClient rawURL = .ok resp ∧ w.Parse rawURL = .error cause ∧
    e.Error = "failed to parse url: " ++ cause.Error ∧ e.Unwrap = some cause) ∨
  (∃ resp parsedURL cause, w.Get DefaultClient rawURL = .ok resp ∧
    w.Parse rawURL = .ok parsedURL ∧ w.FromReader resp.Body parsedURL = .error cause ∧
    e.Error = "failed to parse response body: " ++
      ("failed to parse document from " ++ parsedURL.String ++ ": " ++ cause.Error) ∧
    mentions e.Error parsedURL.String = true ∧
    e.Unwrap.bind GoError.Unwrap = some cause)

/-- The article that `Parse` builds from the article `a` of the library. -/
def copyOf (a : ReadabilityArticle) : Article :=
  { Title := a.Title, RawContent := a.Content, TextContent := a.TextContent, Length := a.Length }

/-! ## The four ways through `ParseArticleFromURL` -/

theorem ParseArticleFromURL_fetch_error (w : World) (rawURL : String) (client : Client)
    (parser : ReadabilityParser) (logger : Logger) (cause : GoError)
    (hget : w.Get DefaultClient rawURL = .error cause) :
    ParseArticleFromURL w rawURL client parser logger =
      { article := Article.zero
        err := some (Errorf "failed to fetch url: " cause)
        trace := logger.Info "parsing article from url..." ++
          [Event.httpGet DefaultClient rawURL] } := by
  simp [ParseArticleFromURL, hget]

theorem ParseArticleFromURL_url_error (w : World) (rawURL : String) (client : Client)
    (parser : ReadabilityParser) (logger : Logger) (resp : Response) (cause : GoError)
    (hget : w.Get DefaultClient rawURL = .ok resp) (hurl : w.Parse rawURL = .error cause) :
    ParseArticleFromURL w rawURL client parser logger =
      { article := Article.zero
        err := some (Errorf "failed to parse url: " cause)
        trace := logger.Info "parsing article from url..." ++
          [Event.httpGet DefaultClient rawURL, Event.urlParse rawURL, Event.close resp.Body] } := by
  simp [ParseArticleFromURL, parseFetched, hget, hurl]

theorem ParseArticleFromURL_extract_error (w : World) (rawURL : String) (client : Client)
    (parser : ReadabilityParser) (logger : Logger) (resp : Response) (parsedURL : URL)
    (cause : GoError)
    (hget : w.Get DefaultClient rawURL = .ok resp) (hurl : w.Parse rawURL = .ok parsedURL)
    (hbody : w.FromReader resp.Body parsedURL = .error cause) :
    ParseArticleFromURL w rawURL client parser logger =
      { article := Article.zero
        err := some (Errorf "failed to parse response body: "
          (Errorf ("failed to parse document from " ++ parsedURL.String ++ ": ") cause))
        trace := logger.Info "parsing article from url..." ++
          [Event.httpGet DefaultClient rawURL, Event.urlParse rawURL,
           Event.fromReader resp.Body parsedURL, Event.close resp.Body] } := by
  simp [ParseArticleFromURL, parseFetched, ReadabilityParser.Parse, hget, hurl, hbody]

theorem ParseArticleFromURL_ok (w : World) (rawURL : String) (client : Client)
    (parser : ReadabilityParser) (logger : Logger) (resp : Response) (parsedURL : URL)
    (a : ReadabilityArticle)
    (hget : w.Get DefaultClient rawURL = .ok resp) (hurl : w.Parse rawURL = .ok parsedURL)
    (hbody : w.FromReader resp.Body parsedURL = .ok a) :
    ParseArticleFromURL w rawURL client parser logger =
      { article :=
          { Title := a.Title, RawContent := a.Content, TextContent := a.TextContent,
            Length := a.Length }
        err := none
        trace := logger.Info "parsing article from url..." ++
          [Event.httpGet DefaultClient rawURL, Event.urlParse rawURL,
           Event.fromReader resp.Body parsedURL] ++
          logger.Info "successfully parsed article" ++ [Event.close resp.Body] } := by
  simp [ParseArticleFromURL, parseFetched, ReadabilityParser.Parse, hget, hurl, hbody]

/-- Every call of `ParseArticleFromURL` takes one of the four ways. -/
theorem ParseArticleFromURL_cases (w : World) (rawURL : String) (client : Client)
    (parser : ReadabilityParser) (logger : Logger) :
    (∃ cause, w.Get DefaultClient rawURL = .error cause ∧
      ParseArticleFromURL w rawURL client parser logger =
        { article := Article.zero
          err := some (Errorf "failed to fetch url: " cause)
          trace := logger.Info "parsing article from url..." ++
            [Event.httpGet DefaultClient rawURL] }) ∨
    (∃ resp cause, w.Get DefaultClient rawURL = .ok resp ∧ w.Parse rawURL = .error cause ∧
      ParseArticleFromURL w rawURL client parser logger =
        { article := Article.zero
          err := some (Errorf "failed to parse url: " cause)
          trace := logger.Info "parsing article from url..." ++
            [Event.httpGet DefaultClient rawURL, Event.urlParse rawURL,
             Event.close resp.Body] }) ∨
    (∃ resp parsedURL cause, w.Get DefaultClient rawURL = .ok resp ∧
      w.Parse rawURL = .ok parsedURL ∧ w.FromReader resp.Body parsedURL = .error cause ∧
      ParseArticleFromURL w rawURL client parser logger =
        { article := Article.zero
          err := some (Errorf "failed to parse response body: "
            (Errorf ("failed to parse document from " ++ parsedURL.String ++ ": ") cause))
          trace := logger.Info "parsing article from url..." ++
            [Event.httpGet DefaultClient rawURL, Event.urlParse rawURL,
             Event.fromReader resp.Body parsedURL, Event.close resp.Body] }) ∨
    (∃ resp parsedURL a, w.Get DefaultClient rawURL = .ok resp ∧
      w.Parse rawURL = .ok parsedURL ∧ w.FromReader resp.Body parsedURL = .ok a ∧
      ParseArticleFromURL w rawURL client parser logger =
        { article :=
            { Title := a.Title, RawContent := a.Content, TextContent := a.TextContent,
              Length := a.Length }
          err := none
          trace := logger.Info "parsing article from url..." ++
            [Event.httpGet DefaultClient rawURL, Event.urlParse rawURL,
             Event.fromReader resp.Body parsedURL] ++
            logger.Info "successfully parsed article" ++ [Event.close resp.Body] }) := by
  cases hget : w.Get DefaultClient rawURL with
  | error cause =>
    exact Or.inl ⟨cause, rfl, ParseArticleFromURL_fetch_error w rawURL client parser logger cause hget⟩
  | ok resp =>
    cases hurl : w.Parse rawURL with
    | error cause =>
      exact Or.inr (Or.inl ⟨resp, cause, rfl, rfl,
        ParseArticleFromURL_url_error w rawURL client parser logger resp cause hget hurl⟩)
    | ok parsedURL =>
      cases hbody : w.FromReader resp.Body parsedURL with
      | error cause =>
        exact Or.inr (Or.inr (Or.inl ⟨resp, parsedURL, cause, rfl, rfl, hbody,
          ParseArticleFromURL_extract_error w rawURL client parser logger resp parsedURL cause
            hget hurl hbody⟩))
      | ok a =>
        exact Or.inr (Or.inr (Or.inr ⟨resp, parsedURL, a, rfl, rfl, hbody,
          ParseArticleFromURL_ok w rawURL client parser logger resp parsedURL a hget hurl hbody⟩))

/-! ## Observations distribute over a trace -/

@[simp]
theorem requests_append (s t : List Event) : requests (s ++ t) = requests s ++ requests t := by
  simp [requests]

@[simp]
theorem records_append (s t : List Event) : records (s ++ t) = records s ++ records t := by
  simp [records]

@[simp]
theorem errorRecords_append (s t : List Event) :
    errorRecords (s ++ t) = errorRecords s ++ errorRecords t := by
  simp [errorRecords]

@[simp]
theorem parserCalls_append (s t : List Event) :
    parserCalls (s ++ t) = parserCalls s ++ parserCalls t := by
  simp [parserCalls]

@[simp]
theorem closes_append (s t : List Event) : closes (s ++ t) = closes s ++ closes t := by
  simp [closes]

@[simp]
theorem requests_emit (l : Logger) (level : Int) (msg : String)
    (args : List (String × String)) : requests (l.emit level msg args) = [] := by
  unfold Logger.emit; split <;> simp [requests]

@[simp]
theorem parserCalls_emit (l : Logger) (level : Int) (msg : String)
    (args : List (String × String)) : parserCalls (l.emit level msg args) = [] := by
  unfold Logger.emit; split <;> simp [parserCalls]

@[simp]
theorem closes_emit (l : Logger) (level : Int) (msg : String)
    (args : List (String × String)) : closes (l.emit level msg args) = [] := by
  unfold Logger.emit; split <;> simp [closes]

theorem requests_ParseArticleFromURL (w : World) (rawURL : String) (client : Client)
    (parser : ReadabilityParser) (logger : Logger) :
    requests (ParseArticleFromURL w rawURL client parser logger).trace =
      [(DefaultClient, rawURL)] := by
  rcases ParseArticleFromURL_cases w rawURL client parser logger with
    ⟨cause, _, h⟩ | ⟨resp, cause, _, _, h⟩ | ⟨resp, parsedURL, cause, _, _, _, h⟩ |
    ⟨resp, parsedURL, a, _, _, _, h⟩ <;>
  · rw [h]
    simp only [Logger.Info, requests_append, requests_emit]
    simp [requests]

theorem requests_iteration (w : World) (logger : Logger) (client : Client)
    (parser : ReadabilityParser) (u : String) :
    requests (iteration w logger client parser u) = [(DefaultClient, u)] := by
  unfold iteration
  have h := requests_ParseArticleFromURL w u client parser (logger.With "url" u)
  cases herr : (ParseArticleFromURL w u client parser (logger.With "url" u)).err with
  | none => simpa [herr] using h
  | some e => simp [herr, h, Logger.Error]

theorem mainLoop_eq_flatMap (w : World) (logger : Logger) (client : Client)
    (parser : ReadabilityParser) (urls : List String) :
    mainLoop w logger client parser urls = urls.flatMap (iteration w logger client parser) := by
  induction urls with
  | nil => rfl
  | cons u rest ih => simp [mainLoop, ih]

theorem mainLoop_append (w : World) (logger : Logger) (client : Client)
    (parser : ReadabilityParser) (before after : List String) :
    mainLoop w logger client parser (before ++ after) =
      mainLoop w logger client parser before ++ mainLoop w logger client parser after := by
  simp [mainLoop_eq_flatMap]

theorem requests_mainLoop (w : World) (logger : Logger) (client : Client)
    (parser : ReadabilityParser) (urls : List String) :
    requests (mainLoop w logger client parser urls) = urls.map fun u => (DefaultClient, u) := by
  induction urls with
  | nil => rfl
  | cons u rest ih => simp [mainLoop, ih, requests_iteration]

/-! ## The logger of `main` -/

theorem childLogger_Info (u msg : String) :
    (mainLogger.With "url" u).Info msg =
      [Event.log { level := LevelInfo, msg := msg, attrs := [("url", u)] }] := by
  simp [Logger.Info, Logger.emit, Logger.With, mainLogger, Logger.New]

theorem childLogger_Error (u msg : String) (args : List (String × String)) :
    (mainLogger.With "url" u).Error msg args =
      [Event.log { level := LevelError, msg := msg, attrs := ("url", u) :: args }] := by
  simp [Logger.Error, Logger.emit, Logger.With, mainLogger, Logger.New, LevelInfo, LevelError]

theorem iteration_of_err (w : World) (logger : Logger) (client : Client)
    (parser : ReadabilityParser) (u : String) (e : GoError)
    (h : (ParseArticleFromURL w u client parser (logger.With "url" u)).err = some e) :
    iteration w logger client parser u =
      (ParseArticleFromURL w u client parser (logger.With "url" u)).trace ++
        (logger.With "url" u).Error "failed to parse article from url" [("error", e.Error)] := by
  simp [iteration, h]

theorem iteration_of_ok (w : World) (logger : Logger) (client : Client)
    (parser : ReadabilityParser) (u : String)
    (h : (ParseArticleFromURL w u client parser (logger.With "url" u)).err = none) :
    iteration w logger client parser u =
      (ParseArticleFromURL w u client parser (logger.With "url" u)).trace := by
  simp [iteration, h]

theorem run_split (w : World) (before : List String) (u : String) (after : List String) :
    run w (before ++ u :: after) =
      run w before ++ iteration w mainLogger mainClient ReadabilityParser.mk u ++ run w after := by
  unfold run
  rw [mainLoop_append]; simp [mainLoop, List.append_assoc]

/-! ## Occurrence of a text in a text -/

theorem startsWith_append (pat rest : List Char) : startsWith pat (pat ++ rest) = true := by
  induction pat with
  | nil => rfl
  | cons p ps ih => simp [startsWith, ih]

theorem occursIn_of_startsWith (pat s : List Char) (h : startsWith pat s = true) :
    occursIn pat s = true := by
  cases s with
  | nil => simpa [occursIn] using h
  | cons c cs => simp [occursIn, h]

theorem occursIn_append (front pat rest : List Char) :
    occursIn pat (front ++ (pat ++ rest)) = true := by
  induction front with
  | nil => exact occursIn_of_startsWith pat _ (startsWith_append pat rest)
  | cons c cs ih => simp [occursIn, ih]

theorem mentions_append (front pat rest : String) :
    mentions (front ++ (pat ++ rest)) pat = true := by
  simp [mentions, occursIn_append]

/-! ## The records of one iteration -/

theorem records_iteration (w : World) (u : String) :
    IsBlock w u (records (iteration w mainLogger mainClient ReadabilityParser.mk u)) := by
  rcases ParseArticleFromURL_cases w u mainClient ReadabilityParser.mk (mainLogger.With "url" u)
    with ⟨cause, hget, h⟩ | ⟨resp, cause, hget, hurl, h⟩ |
      ⟨resp, parsedURL, cause, hget, hurl, hfr, h⟩ | ⟨resp, parsedURL, a, hget, hurl, hfr, h⟩
  · rw [iteration_of_err w mainLogger mainClient ReadabilityParser.mk u _ (by rw [h]), h,
      childLogger_Info, childLogger_Error]
    exact ⟨_, by simp [records, startRecord]; rfl,
      Or.inr ⟨by simp [extractionSucceeds, hget], _, rfl⟩⟩
  · rw [iteration_of_err w mainLogger mainClient ReadabilityParser.mk u _ (by rw [h]), h,
      childLogger_Info, childLogger_Error]
    exact ⟨_, by simp [records, startRecord]; rfl,
      Or.inr ⟨by simp [extractionSucceeds, hget, hurl], _, rfl⟩⟩
  · rw [iteration_of_err w mainLogger mainClient ReadabilityParser.mk u _ (by rw [h]), h,
      childLogger_Info, childLogger_Error]
    exact ⟨_, by simp [records, startRecord]; rfl,
      Or.inr ⟨by simp [extractionSucceeds, hget, hurl, hfr], _, rfl⟩⟩
  · rw [iteration_of_ok w mainLogger mainClient ReadabilityParser.mk u (by rw [h]), h,
      childLogger_Info, childLogger_Info]
    exact ⟨_, by simp [records, startRecord]; rfl,
      Or.inl ⟨by simp [extractionSucceeds, hget, hurl, hfr], rfl⟩⟩

/-! ## The claims -/

/-- C1: for every list of URLs and every behaviour of the libraries, the loop
of `main` is the concatenation, in list order, of one iteration per URL; each
iteration calls `ParseArticleFromURL` once, which issues one request, for its
own URL; so the requests of the whole loop are the URLs of the list, each once
and in order, and what follows a URL is processed whatever that URL did. -/
theorem main_loop_processes_every_url (w : World) (logger : Logger) (client : Client)
    (parser : ReadabilityParser) (urls : List String) :
    mainLoop w logger client parser urls = urls.flatMap (iteration w logger client parser) ∧
    (requests (mainLoop w logger client parser urls)).map Prod.snd = urls ∧
    (∀ u, (requests (ParseArticleFromURL w u client parser (logger.With "url" u)).trace).map
        Prod.snd = [u]) ∧
    (∀ before u after, mainLoop w logger client parser (before ++ u :: after) =
      mainLoop w logger client parser before ++ iteration w logger client parser u ++
        mainLoop w logger client parser after) := by
  refine ⟨mainLoop_eq_flatMap w logger client parser urls, ?_, ?_, ?_⟩
  · rw [requests_mainLoop]; simp [Function.comp_def]
  · intro u; rw [requests_ParseArticleFromURL]; rfl
  · intro before u after
    rw [mainLoop_append]; simp [mainLoop, List.append_assoc]

/-- C2 (the code departs from it): the request of `ParseArticleFromURL` is made
by `http.DefaultClient`, whose `Timeout` is zero (no timeout), whatever client is
passed in; in `main` both requests are made that way and none by the client
built with a timeout of ten seconds. -/
theorem main_requests_use_default_client (w : World) :
    requests (main w) =
      [ (DefaultClient, "https://cbea.ms/git-commit/"),
        (DefaultClient, "https://tbaggery.com/2008/04/19/a-note-about-git-commit-messages.html") ] ∧
    DefaultClient.Timeout = 0 ∧ mainClient.Timeout = 10 * Second ∧
    (∀ raw, (mainClient, raw) ∉ requests (main w)) ∧
    (∀ raw client other parser logger, ParseArticleFromURL w raw client parser logger =
      ParseArticleFromURL w raw other parser logger) := by
  have h : requests (main w) =
      [ (DefaultClient, "https://cbea.ms/git-commit/"),
        (DefaultClient, "https://tbaggery.com/2008/04/19/a-note-about-git-commit-messages.html") ] := by
    simp [main, run, requests_mainLoop, mainURLs]
  refine ⟨h, rfl, rfl, ?_, ?_⟩
  · intro raw hmem
    rw [h] at hmem
    simp [mainClient, DefaultClient, Second] at hmem
  · intros; rfl

/-- C3: when the fetch of a URL fails, `ParseArticleFromURL` returns the zero
article and an error, the parser is not called, the iteration of that URL
emits exactly one record at the level Error, carrying `url` = the URL and
`error` = the message of the returned error, and the loop goes on with the
URLs that follow. -/
theorem fetch_failure_is_logged_and_skipped (w : World) (before : List String) (u : String)
    (after : List String) (cause : GoError) (hget : w.Get DefaultClient u = .error cause) :
    (ParseArticleFromURL w u mainClient ReadabilityParser.mk (mainLogger.With "url" u)).err =
      some (Errorf "failed to fetch url: " cause) ∧
    parserCalls
      (ParseArticleFromURL w u mainClient ReadabilityParser.mk (mainLogger.With "url" u)).trace
      = [] ∧
    errorRecords (iteration w mainLogger mainClient ReadabilityParser.mk u) =
      [{ level := LevelError, msg := "failed to parse article from url",
         attrs := [("url", u), ("error", (Errorf "failed to fetch url: " cause).Error)] }] ∧
    run w (before ++ u :: after) =
      run w before ++ iteration w mainLogger mainClient ReadabilityParser.mk u ++ run w after := by
  have h := ParseArticleFromURL_fetch_error w u mainClient ReadabilityParser.mk
    (mainLogger.With "url" u) cause hget
  refine ⟨by rw [h], ?_, ?_, run_split w before u after⟩
  · rw [h]
    simp only [Logger.Info, parserCalls_append, parserCalls_emit]
    simp [parserCalls]
  · rw [iteration_of_err w mainLogger mainClient ReadabilityParser.mk u _ (by rw [h]), h,
      childLogger_Info, childLogger_Error]
    simp [errorRecords, records, LevelInfo, LevelError]

/-- The failed fetch of `http://moved/` between two other URLs. -/
theorem fetch_failure_is_logged_and_skipped_witness :
    demoWorld.Get DefaultClient "http://moved/" =
      .error (.lib "Get \x22http://gone/\x22: EOF") ∧
    errorRecords (iteration demoWorld mainLogger mainClient ReadabilityParser.mk "http://moved/") =
      [{ level := LevelError, msg := "failed to parse article from url",
         attrs := [("url", "http://moved/"),
           ("error", (Errorf "failed to fetch url: "
              (.lib "Get \x22http://gone/\x22: EOF")).Error)] }] ∧
    run demoWorld (["http://ok/"] ++ "http://moved/" :: ["http://empty/"]) =
      run demoWorld ["http://ok/"] ++
        iteration demoWorld mainLogger mainClient ReadabilityParser.mk "http://moved/" ++
        run demoWorld ["http://empty/"] :=
  ⟨rfl,
   (fetch_failure_is_logged_and_skipped demoWorld ["http://ok/"] "http://moved/" ["http://empty/"]
      (.lib "Get \x22http://gone/\x22: EOF") rfl).2.2⟩

/-- C4: when the fetch of a URL succeeds and the parser returns an error for
the fetched body, `ParseArticleFromURL` returns the zero article and an error,
the iteration of that URL emits exactly one record at the level Error,
carrying `url` = the URL and `error` = the message of the returned error, and
the loop goes on with the URLs that follow. -/
theorem extraction_failure_is_logged_and_skipped (w : World) (before : List String) (u : String)
    (after : List String) (resp : Response) (parsedURL : URL) (e : GoError)
    (hget : w.Get DefaultClient u = .ok resp) (hurl : w.Parse u = .ok parsedURL)
    (hbody : (ReadabilityParser.mk.Parse w resp.Body parsedURL).err = some e) :
    (ParseArticleFromURL w u mainClient ReadabilityParser.mk (mainLogger.With "url" u)).err =
      some (Errorf "failed to parse response body: " e) ∧
    (ParseArticleFromURL w u mainClient ReadabilityParser.mk (mainLogger.With "url" u)).article =
      Article.zero ∧
    errorRecords (iteration w mainLogger mainClient ReadabilityParser.mk u) =
      [{ level := LevelError, msg := "failed to parse article from url",
         attrs := [("url", u),
           ("error", (Errorf "failed to parse response body: " e).Error)] }] ∧
    run w (before ++ u :: after) =
      run w before ++ iteration w mainLogger mainClient ReadabilityParser.mk u ++ run w after := by
  cases hfr : w.FromReader resp.Body parsedURL with
  | ok a => simp [ReadabilityParser.Parse, hfr] at hbody
  | error cause =>
    have he : e = Errorf ("failed to parse document from " ++ parsedURL.String ++ ": ") cause := by
      simp [ReadabilityParser.Parse, hfr] at hbody
      exact hbody.symm
    subst he
    have h := ParseArticleFromURL_extract_error w u mainClient ReadabilityParser.mk
      (mainLogger.With "url" u) resp parsedURL cause hget hurl hfr
    refine ⟨by rw [h], by rw [h], ?_, run_split w before u after⟩
    rw [iteration_of_err w mainLogger mainClient ReadabilityParser.mk u _ (by rw [h]), h,
      childLogger_Info, childLogger_Error]
    simp [errorRecords, records, LevelInfo, LevelError]

/-- The empty body of `http://empty/` between two other URLs. -/
theorem extraction_failure_is_logged_and_skipped_witness :
    demoWorld.Get DefaultClient "http://empty/" =
      .ok { StatusCode := 200, Body := { id := 3, data := "" } } ∧
    demoWorld.Parse "http://empty/" = .ok { String := "http://empty/" } ∧
    errorRecords (iteration demoWorld mainLogger mainClient ReadabilityParser.mk "http://empty/") =
      [{ level := LevelError, msg := "failed to parse article from url",
         attrs := [("url", "http://empty/"), ("error", (Errorf "failed to parse response body: "
           (Errorf ("failed to parse document from " ++ "http://empty/" ++ ": ")
             (.lib "EOF"))).Error)] }] ∧
    run demoWorld (["http://moved/"] ++ "http://empty/" :: ["http://ok/"]) =
      run demoWorld ["http://moved/"] ++
        iteration demoWorld mainLogger mainClient ReadabilityParser.mk "http://empty/" ++
        run demoWorld ["http://ok/"] :=
  ⟨rfl, rfl,
   (extraction_failure_is_logged_and_skipped demoWorld ["http://moved/"] "http://empty/"
      ["http://ok/"] { StatusCode := 200, Body := { id := 3, data := "" } }
      { String := "http://empty/" }
      (Errorf ("failed to parse document from " ++ "http://empty/" ++ ": ") (.lib "EOF"))
      rfl rfl rfl).2.2⟩

/-- C5: `Parse` copies `TextContent` and `Length` from the same article of the
library, so, the library reporting as `Length` the character count of its
`TextContent`, every article returned with a nil error by `Parse`, and hence by
`ParseArticleFromURL`, has `Length` equal to the character count of its
`TextContent`. -/
theorem article_length_counts_characters (w : World) (hlib : w.extractorCountsCharacters)
    (body : Body) (parsedURL : URL) (rawURL : String) (client : Client)
    (parser : ReadabilityParser) (logger : Logger) :
    ((parser.Parse w body parsedURL).err = none →
      (parser.Parse w body parsedURL).article.Length =
        (parser.Parse w body parsedURL).article.TextContent.length) ∧
    ((ParseArticleFromURL w rawURL client parser logger).err = none →
      (ParseArticleFromURL w rawURL client parser logger).article.Length =
        (ParseArticleFromURL w rawURL client parser logger).article.TextContent.length) := by
  constructor
  · intro herr
    cases hfr : w.FromReader body parsedURL with
    | error cause => simp [ReadabilityParser.Parse, hfr] at herr
    | ok a => simpa [ReadabilityParser.Parse, hfr] using hlib body parsedURL a hfr
  · intro herr
    rcases ParseArticleFromURL_cases w rawURL client parser logger with
      ⟨cause, _, h⟩ | ⟨resp, cause, _, _, h⟩ | ⟨resp, parsedURL, cause, _, _, _, h⟩ |
      ⟨resp, parsedURL, a, _, _, hfr, h⟩
    · rw [h] at herr; simp at herr
    · rw [h] at herr; simp at herr
    · rw [h] at herr; simp at herr
    · rw [h]; exact hlib resp.Body parsedURL a hfr

/-- The library of `demoWorld` reports the character count. -/
theorem demoWorld_extractorCountsCharacters : demoWorld.extractorCountsCharacters := by
  intro body u a h
  simp only [demoWorld] at h
  split at h
  · cases h
  · cases h; decide

/-- The article extracted from `http://ok/`. -/
theorem article_length_counts_characters_witness :
    demoWorld.extractorCountsCharacters ∧
    (ParseArticleFromURL demoWorld "http://ok/" mainClient ReadabilityParser.mk mainLogger).err
      = none ∧
    (ParseArticleFromURL demoWorld "http://ok/" mainClient ReadabilityParser.mk
      mainLogger).article.Length =
    (ParseArticleFromURL demoWorld "http://ok/" mainClient ReadabilityParser.mk
      mainLogger).article.TextContent.length :=
  ⟨demoWorld_extractorCountsCharacters, by decide,
   (article_length_counts_characters demoWorld demoWorld_extractorCountsCharacters
      { id := 1, data := demoPage } { String := "http://ok/" } "http://ok/" mainClient
      ReadabilityParser.mk mainLogger).2 (by decide)⟩

/-- C6: `ParseArticleFromURL` does not read the status code.  Two worlds whose
responses to the request differ at most in the status code, and whose parsers
agree, give the same article, the same error and the same effects; and, the
URL being one that `url.Parse` accepts, the parser is called once, on the body
of the response. -/
theorem status_code_is_ignored (w₁ w₂ : World) (rawURL : String) (client : Client)
    (parser : ReadabilityParser) (logger : Logger) (r₁ r₂ : Response)
    (h₁ : w₁.Get DefaultClient rawURL = .ok r₁) (h₂ : w₂.Get DefaultClient rawURL = .ok r₂)
    (hbody : r₁.Body = r₂.Body) (hurl : w₁.Parse = w₂.Parse)
    (hlib : w₁.FromReader = w₂.FromReader) :
    ParseArticleFromURL w₁ rawURL client parser logger =
      ParseArticleFromURL w₂ rawURL client parser logger ∧
    (∀ parsedURL, w₁.Parse rawURL = .ok parsedURL →
      parserCalls (ParseArticleFromURL w₁ rawURL client parser logger).trace =
        [(r₁.Body, parsedURL)]) := by
  constructor
  · simp [ParseArticleFromURL, parseFetched, ReadabilityParser.Parse, h₁, h₂, hbody, hurl, hlib]
  · intro parsedURL hp
    cases hfr : w₁.FromReader r₁.Body parsedURL with
    | error cause =>
      rw [ParseArticleFromURL_extract_error w₁ rawURL client parser logger r₁ parsedURL cause
        h₁ hp hfr]
      simp only [Logger.Info, parserCalls_append, parserCalls_emit]
      simp [parserCalls]
    | ok a =>
      rw [ParseArticleFromURL_ok w₁ rawURL client parser logger r₁ parsedURL a h₁ hp hfr]
      simp only [Logger.Info, parserCalls_append, parserCalls_emit]
      simp [parserCalls]

/-- The page of `http://ok/` served with status 200 and with status 404. -/
theorem status_code_is_ignored_witness :
    demoWorld.Get DefaultClient "http://ok/" =
      .ok { StatusCode := 200, Body := { id := 1, data := demoPage } } ∧
    (demoWorld.withStatus 404).Get DefaultClient "http://ok/" =
      .ok { StatusCode := 404, Body := { id := 1, data := demoPage } } ∧
    ParseArticleFromURL demoWorld "http://ok/" mainClient ReadabilityParser.mk mainLogger =
      ParseArticleFromURL (demoWorld.withStatus 404) "http://ok/" mainClient ReadabilityParser.mk
        mainLogger :=
  ⟨rfl, rfl,
   (status_code_is_ignored demoWorld (demoWorld.withStatus 404) "http://ok/" mainClient
      ReadabilityParser.mk mainLogger
      { StatusCode := 200, Body := { id := 1, data := demoPage } }
      { StatusCode := 404, Body := { id := 1, data := demoPage } } rfl rfl rfl rfl rfl).1⟩

/-- C7: in every call of `ParseArticleFromURL` whose fetch succeeds, the body
of the response is closed exactly once, no other body is closed, and the close
is the last effect of the call, whichever way the call ends; when the fetch
fails nothing is closed. -/
theorem body_closed_exactly_once (w : World) (rawURL : String) (client : Client)
    (parser : ReadabilityParser) (logger : Logger) :
    (∀ resp, w.Get DefaultClient rawURL = .ok resp →
      closes (ParseArticleFromURL w rawURL client parser logger).trace = [resp.Body] ∧
      (ParseArticleFromURL w rawURL client parser logger).trace.getLast? =
        some (Event.close resp.Body)) ∧
    (∀ cause, w.Get DefaultClient rawURL = .error cause →
      closes (ParseArticleFromURL w rawURL client parser logger).trace = []) := by
  rcases ParseArticleFromURL_cases w rawURL client parser logger with
    ⟨cause, hget, h⟩ | ⟨resp, cause, hget, _, h⟩ | ⟨resp, parsedURL, cause, hget, _, _, h⟩ |
    ⟨resp, parsedURL, a, hget, _, _, h⟩
  · refine ⟨fun resp hr => ?_, fun c _ => ?_⟩
    · rw [hget] at hr; cases hr
    · rw [h]
      simp only [Logger.Info, closes_append, closes_emit]
      simp [closes]
  all_goals
    refine ⟨fun resp' hr => ?_, fun c hc => ?_⟩
    · rw [hget] at hr
      cases hr
      rw [h]
      constructor
      · simp only [Logger.Info, closes_append, closes_emit]
        simp [closes]
      · first
          | exact List.getLast?_concat _
          | simp [List.getLast?_append]
    · rw [hget] at hc; cases hc

/-- The body of `http://odd/` is closed although `url.Parse` fails. -/
theorem body_closed_exactly_once_witness :
    demoWorld.Get DefaultClient "http://odd/" =
      .ok { StatusCode := 200, Body := { id := 4, data := "" } } ∧
    closes (ParseArticleFromURL demoWorld "http://odd/" mainClient ReadabilityParser.mk
      mainLogger).trace = [{ id := 4, data := "" }] :=
  ⟨rfl,
   ((body_closed_exactly_once demoWorld "http://odd/" mainClient ReadabilityParser.mk
      mainLogger).1 { StatusCode := 200, Body := { id := 4, data := "" } } rfl).1⟩

/-- C8 as stated fails: `http://moved/` redirects to a host that drops the
connection, the library reports the error against the URL it was redirected to,
and the error that `ParseArticleFromURL` returns for `http://moved/` has the
message of the library behind the text of the stage: the URL does not occur
in it. -/
theorem fetch_error_message_lacks_url :
    (ParseArticleFromURL demoWorld "http://moved/" mainClient ReadabilityParser.mk
      (mainLogger.With "url" "http://moved/")).err =
      some (Errorf "failed to fetch url: " (.lib "Get \x22http://gone/\x22: EOF")) ∧
    (Errorf "failed to fetch url: " (.lib "Get \x22http://gone/\x22: EOF")).Error =
      "failed to fetch url: Get \x22http://gone/\x22: EOF" ∧
    mentions (Errorf "failed to fetch url: " (.lib "Get \x22http://gone/\x22: EOF")).Error
      "http://moved/" = false := by
  refine ⟨by decide, by decide, by decide⟩

/-- C8, amended: every error returned by `ParseArticleFromURL` is the cause
wrapped in a text that names the failing stage (fetch, parse url, parse
response body); its message is that text followed by the message of what it
wraps, and unwrapping leads to the cause, in one step for a failed fetch or
URL parse and in two for a failed extraction, where the error of `Parse` lies
between and puts the `String()` of the parsed URL in the message. -/
theorem returned_error_names_stage_and_wraps_cause (w : World) (rawURL : String)
    (client : Client) (parser : ReadabilityParser) (logger : Logger) (e : GoError)
    (h : (ParseArticleFromURL w rawURL client parser logger).err = some e) :
    NamesStageAndWrapsCause w rawURL e := by
  rcases ParseArticleFromURL_cases w rawURL client parser logger with
    ⟨cause, hget, hr⟩ | ⟨resp, cause, hget, hurl, hr⟩ |
    ⟨resp, parsedURL, cause, hget, hurl, hfr, hr⟩ | ⟨resp, parsedURL, a, hget, hurl, hfr, hr⟩
  · rw [hr] at h
    cases h
    exact Or.inl ⟨cause, hget, rfl, rfl⟩
  · rw [hr] at h
    cases h
    exact Or.inr (Or.inl ⟨resp, cause, hget, hurl, rfl, rfl⟩)
  · rw [hr] at h
    cases h
    refine Or.inr (Or.inr ⟨resp, parsedURL, cause, hget, hurl, hfr, rfl, ?_, rfl⟩)
    show mentions ("failed to parse response body: " ++
      ("failed to parse document from " ++ parsedURL.String ++ ": " ++ cause.Error))
      parsedURL.String = true
    have hs : "failed to parse response body: " ++
        ("failed to parse document from " ++ parsedURL.String ++ ": " ++ cause.Error) =
        ("failed to parse response body: " ++ "failed to parse document from ") ++
          (parsedURL.String ++ (": " ++ cause.Error)) := by
      simp only [String.append_assoc]
    rw [hs]
    exact mentions_append _ _ _
  · rw [hr] at h
    cases h

/-- The error returned for `http://empty/`. -/
theorem returned_error_names_stage_and_wraps_cause_witness :
    (ParseArticleFromURL demoWorld "http://empty/" mainClient ReadabilityParser.mk mainLogger).err =
      some (Errorf "failed to parse response body: "
        (Errorf ("failed to parse document from " ++ "http://empty/" ++ ": ") (.lib "EOF"))) ∧
    NamesStageAndWrapsCause demoWorld "http://empty/"
      (Errorf "failed to parse response body: "
        (Errorf ("failed to parse document from " ++ "http://empty/" ++ ": ") (.lib "EOF"))) :=
  ⟨by decide,
   returned_error_names_stage_and_wraps_cause demoWorld "http://empty/" mainClient
     ReadabilityParser.mk mainLogger _ (by decide)⟩

/-- C9: for every list of URLs the records that the program emits are the
concatenation, in list order, of one block per URL; the block of a URL is two
records tagged with it, the Info record "parsing article from url..." and then
the Info record "successfully parsed article" when fetch and extraction both
succeeded, or else the Error record "failed to parse article from url"; so
n URLs give 2n records. -/
theorem log_is_one_block_per_url (w : World) (urls : List String) :
    ∃ blocks : List (List Record),
      records (run w urls) = blocks.flatten ∧
      List.Forall₂ (IsBlock w) urls blocks ∧
      (records (run w urls)).length = 2 * urls.length := by
  induction urls with
  | nil => exact ⟨[], rfl, List.Forall₂.nil, rfl⟩
  | cons u rest ih =>
    obtain ⟨blocks, hrec, hall, hlen⟩ := ih
    have hb := records_iteration w u
    have hrun : records (run w (u :: rest)) =
        records (iteration w mainLogger mainClient ReadabilityParser.mk u) ++
          records (run w rest) := by
      simp [run, mainLoop]
    refine ⟨records (iteration w mainLogger mainClient ReadabilityParser.mk u) :: blocks,
      ?_, List.Forall₂.cons hb hall, ?_⟩
    · rw [hrun, hrec]; simp
    · obtain ⟨second, hsecond, _⟩ := hb
      rw [hrun, hsecond]
      simp [hlen]
      omega

/-- C10: neither `Parse` nor `ParseArticleFromURL` returns a partly filled
result: with an error the article is the zero value, and without one it is the
article of the library with `Title`, `Content`, `TextContent` and `Length`
copied to `Title`, `RawContent`, `TextContent` and `Length`. -/
theorem no_partial_result (w : World) (body : Body) (parsedURL : URL) (rawURL : String)
    (client : Client) (parser : ReadabilityParser) (logger : Logger) :
    ((parser.Parse w body parsedURL).err ≠ none →
      (parser.Parse w body parsedURL).article = Article.zero) ∧
    ((parser.Parse w body parsedURL).err = none →
      ∃ a, w.FromReader body parsedURL = .ok a ∧
        (parser.Parse w body parsedURL).article = copyOf a) ∧
    ((ParseArticleFromURL w rawURL client parser logger).err ≠ none →
      (ParseArticleFromURL w rawURL client parser logger).article = Article.zero) ∧
    ((ParseArticleFromURL w rawURL client parser logger).err = none →
      ∃ resp u a, w.Get DefaultClient rawURL = .ok resp ∧ w.Parse rawURL = .ok u ∧
        w.FromReader resp.Body u = .ok a ∧
        (ParseArticleFromURL w rawURL client parser logger).article = copyOf a) := by
  refine ⟨?_, ?_, ?_, ?_⟩
  · intro herr
    cases hfr : w.FromReader body parsedURL with
    | error cause => simp [ReadabilityParser.Parse, hfr]
    | ok a => simp [ReadabilityParser.Parse, hfr] at herr
  · intro herr
    cases hfr : w.FromReader body parsedURL with
    | error cause => simp [ReadabilityParser.Parse, hfr] at herr
    | ok a => exact ⟨a, rfl, by simp [ReadabilityParser.Parse, hfr, copyOf]⟩
  · intro herr
    rcases ParseArticleFromURL_cases w rawURL client parser logger with
      ⟨cause, _, h⟩ | ⟨resp, cause, _, _, h⟩ | ⟨resp, u, cause, _, _, _, h⟩ |
      ⟨resp, u, a, _, _, _, h⟩
    · rw [h]
    · rw [h]
    · rw [h]
    · rw [h] at herr; simp at herr
  · intro herr
    rcases ParseArticleFromURL_cases w rawURL client parser logger with
      ⟨cause, _, h⟩ | ⟨resp, cause, _, _, h⟩ | ⟨resp, u, cause, _, _, _, h⟩ |
      ⟨resp, u, a, hget, hurl, hfr, h⟩
    · rw [h] at herr; simp at herr
    · rw [h] at herr; simp at herr
    · rw [h] at herr; simp at herr
    · exact ⟨resp, u, a, hget, hurl, hfr, by rw [h]; rfl⟩

/-- The results for `http://odd/` (an error) and `http://missing/` (an article). -/
theorem no_partial_result_witness :
    (ParseArticleFromURL demoWorld "http://odd/" mainClient ReadabilityParser.mk mainLogger).err
      ≠ none ∧
    (ParseArticleFromURL demoWorld "http://odd/" mainClient ReadabilityParser.mk
      mainLogger).article = Article.zero ∧
    (ParseArticleFromURL demoWorld "http://missing/" mainClient ReadabilityParser.mk
      mainLogger).err = none ∧
    (ParseArticleFromURL demoWorld "http://missing/" mainClient ReadabilityParser.mk
      mainLogger).article =
      { Title := "T", RawContent := "<p>Hello world</p>", TextContent := "Hello world",
        Length := 11 } :=
  ⟨by decide,
   (no_partial_result demoWorld { id := 4, data := "" } { String := "http://odd/" }
      "http://odd/" mainClient ReadabilityParser.mk mainLogger).2.2.1 (by decide),
   by decide, by decide⟩

end Rela
